import Mathlib

/-!
# Verification of the semantic-question-analyzer core pipeline

Shallow embedding of the Flask service in `app/` (files `helpers.py`,
`api.py`, `schemas.py`, `config.py`).  Pure control flow, filtering and
error mapping are translated directly from the Python source.  Effectful
calls to external libraries (the HTTP fetch, the AI provider SDKs,
scikit-learn's `cosine_similarity` and `AgglomerativeClustering`,
BeautifulSoup) are modelled as explicit oracle inputs describing the
outcome of each external call; the surrounding Python control flow,
including which exception classes each `except` clause catches, is
translated faithfully.
-/

set_option autoImplicit false

namespace SQA

/-- A fetched corpus record (`helpers.fetch_questions_from_url` returns a
list of dicts).  The pipelines only project the `Question` key
(`q.get('Question', '')`); all other fields ride along verbatim in
`meta`.  `question = none` models a dict without a `Question` key. -/
structure Question where
  question : Option String
  meta : List (String × String)
deriving DecidableEq, Repr

/-- Exception classes that can escape a provider SDK call.  The first
four are the classes named in the `except` tuples of `helpers.py`
(`google_exceptions.ServiceUnavailable`, `google_exceptions.RetryError`,
`openai.APIStatusError`, `openai.APIConnectionError`);
`otherProviderError` stands for any other exception raised by a provider
call (for example `google_exceptions.InternalServerError`), which no
`except` clause in `helpers.py` matches. -/
inductive ProviderExc where
  | serviceUnavailable
  | retryError
  | apiStatusError
  | apiConnectionError
  | otherProviderError
deriving DecidableEq, Repr

/-- Python exceptions that propagate out of the helper functions, as the
caller in `api.py` can distinguish them: `AIServiceUnavailableError` is
caught specially (503), everything else falls into the generic
`except Exception` (500). -/
inductive PyError where
  | aiServiceUnavailable (msg : String)
  | valueError (msg : String)
  | attributeError
  | uncaughtProvider (e : ProviderExc)
deriving DecidableEq, Repr

/-- Classification of `json.loads` applied to the text an LLM returned:
the text is not JSON at all (`json.loads` raises `JSONDecodeError`), it
is JSON but not an object (so `.get` raises `AttributeError`), it is an
object without an `is_valid` key, or an object with a boolean
`is_valid`. -/
inductive ParsedJson where
  | notJson
  | nonObject
  | objMissingIsValid
  | objIsValid (b : Bool)
deriving DecidableEq, Repr

/-- Outcome of one reasoning-provider call: either an exception was
raised, or a response text came back whose JSON parse classifies as
given. -/
inductive CallOutcome where
  | raised (e : ProviderExc)
  | returned (body : ParsedJson)
deriving DecidableEq, Repr

/-- Process-wide state relevant to `validate_question_quality`: whether
the module-level `openai_client` / `deepseek_client` handles were
initialized, and the outcome of the provider call if one is made. -/
structure ReasoningEnv where
  openaiClient : Bool
  deepseekClient : Bool
  outcome : CallOutcome
deriving DecidableEq, Repr

/-- Outcome of one embedding-provider call: an exception, or the final
list of vectors (after the gemini single-text wrap in
`helpers.get_embeddings`).  Vector entries are modelled as rationals. -/
inductive EmbedOutcome where
  | raised (e : ProviderExc)
  | ok (vecs : List (List ℚ))
deriving DecidableEq, Repr

/-- State relevant to `get_embeddings`: the `openai_client` handle and
the outcome of the provider call if one is made. -/
structure EmbedEnv where
  openaiClient : Bool
  outcome : EmbedOutcome
deriving DecidableEq, Repr

/-- Result of `helpers.fetch_questions_from_url`: `ok qs` when the URL
yielded a JSON list, `failure` when the function returns `None` (network
error / non-2xx status / non-list JSON / `JSONDecodeError`). -/
inductive FetchResult where
  | ok (qs : List Question)
  | failure
deriving DecidableEq, Repr

/-- `stripTagsAux cs inTag` drops every character between `<` and `>`.
Together with `String.trim` this models what
`BeautifulSoup(raw, "lxml").get_text().strip()` computes on the inputs
the service feeds it; the claims below depend only on its value at the
empty string, which `helpers.clean_html` special-cases before the
library is ever invoked. -/
def stripTagsAux : List Char → Bool → List Char
  | [], _ => []
  | c :: rest, inTag =>
    if c = '<' then stripTagsAux rest true
    else if c = '>' then stripTagsAux rest false
    else if inTag then stripTagsAux rest true
    else c :: stripTagsAux rest false

/-- `helpers.clean_html`: empty (falsy) input short-circuits to `""`;
otherwise markup is stripped and whitespace trimmed. -/
def clean_html (raw : String) : String :=
  if raw = "" then "" else (String.mk (stripTagsAux raw.data false)).trim

/-- The text the pipelines extract from a record:
`clean_html(q.get('Question', ''))`. -/
def questionText (q : Question) : String :=
  clean_html (q.question.getD "")

/-- The normalized text batch for a fetched corpus, in corpus order. -/
def questionTexts (qs : List Question) : List String :=
  qs.map questionText

/-- Which exception classes the `except` tuple of
`validate_question_quality` catches
(`google_exceptions.ServiceUnavailable, google_exceptions.RetryError,
APIStatusError, APIConnectionError`). -/
def caughtByValidate : ProviderExc → Bool
  | .serviceUnavailable => true
  | .retryError => true
  | .apiStatusError => true
  | .apiConnectionError => true
  | .otherProviderError => false

/-- Shared tail of `helpers.validate_question_quality` once a provider
call is made: exceptions of the caught classes become
`AIServiceUnavailableError`; a `JSONDecodeError` from `json.loads`
returns `False`; `.get('is_valid', False)` on a parsed object defaults
the missing key to `False`; `.get` on a non-object raises
`AttributeError`, which no `except` clause catches. -/
def validateOutcome (provider : String) : CallOutcome → Except PyError Bool
  | .raised e =>
      if caughtByValidate e then
        .error (.aiServiceUnavailable
          ("The " ++ provider ++ " quality check service is unavailable."))
      else .error (.uncaughtProvider e)
  | .returned .notJson => .ok false
  | .returned .nonObject => .error .attributeError
  | .returned .objMissingIsValid => .ok false
  | .returned (.objIsValid b) => .ok b

/-- `helpers.validate_question_quality` (the question text and model
name do not influence control flow and are omitted): dispatch on the
provider string; for `openai`/`deepseek`, `get_ai_client` raises
`ValueError` when the module-level client is uninitialized (not caught
by the `except` tuple); an unsupported provider raises `ValueError`. -/
def validate_question_quality (provider : String) (env : ReasoningEnv) :
    Except PyError Bool :=
  if provider = "gemini" then
    validateOutcome provider env.outcome
  else if provider = "openai" then
    if env.openaiClient then validateOutcome provider env.outcome
    else .error (.valueError "OpenAI client is not initialized. Check API key.")
  else if provider = "deepseek" then
    if env.deepseekClient then validateOutcome provider env.outcome
    else .error (.valueError "DeepSeek client is not initialized. Check API key.")
  else .error (.valueError ("Unsupported reasoning provider: " ++ provider))

/-- Which exception classes the gemini branch of
`helpers.get_embeddings` catches (`ServiceUnavailable, RetryError`). -/
def caughtByEmbedGemini : ProviderExc → Bool
  | .serviceUnavailable => true
  | .retryError => true
  | _ => false

/-- Which exception classes the openai branch of
`helpers.get_embeddings` catches (`APIStatusError, APIConnectionError`). -/
def caughtByEmbedOpenai : ProviderExc → Bool
  | .apiStatusError => true
  | .apiConnectionError => true
  | _ => false

/-- `helpers.get_embeddings`: per-provider branch, each with its own
`except` tuple turning the caught classes into
`AIServiceUnavailableError`; the openai branch first obtains the shared
client (`ValueError` when missing, raised inside the `try` but not
caught by its tuple); any other provider name raises `ValueError`. -/
def get_embeddings (provider : String) (env : EmbedEnv) :
    Except PyError (List (List ℚ)) :=
  if provider = "gemini" then
    match env.outcome with
    | .raised e =>
        if caughtByEmbedGemini e then
          .error (.aiServiceUnavailable
            ("The " ++ provider ++ " embedding service is unavailable."))
        else .error (.uncaughtProvider e)
    | .ok vecs => .ok vecs
  else if provider = "openai" then
    if env.openaiClient then
      match env.outcome with
      | .raised e =>
          if caughtByEmbedOpenai e then
            .error (.aiServiceUnavailable
              ("The " ++ provider ++ " embedding service is unavailable."))
          else .error (.uncaughtProvider e)
      | .ok vecs => .ok vecs
    else .error (.valueError "OpenAI client is not initialized. Check API key.")
  else .error (.valueError ("Unsupported embedding provider: " ++ provider))

/-- Application configuration relevant to the pipelines:
`current_app.config.get` as a partial string map, and
`SIMILARITY_THRESHOLD` as a rational. -/
structure AppConfig where
  config : String → Option String
  threshold : ℚ

/-- `api.get_model_from_provider`: builds the key
`f"{provider_name.upper()}_{provider_type.upper()}_MODEL"`, reads it
from the config, and maps a missing or falsy (empty-string) value to
`None`. -/
def get_model_from_provider (cfg : AppConfig)
    (provider_type provider_name : String) : Option String :=
  match cfg.config (provider_name.toUpper ++ "_" ++ provider_type.toUpper ++ "_MODEL") with
  | none => none
  | some s => if s = "" then none else some s

/-- The list comprehension of `api.check_similarity`:
`[existing_questions[i] for i, score in enumerate(similarities) if score >= threshold]`.
The `i`-th similarity is compared against the threshold and, when it
passes, `existing_questions[i]` is selected; a passing index beyond the
end of the corpus raises `IndexError` (modelled as `none`), which the
endpoint's generic `except Exception` turns into a 500. -/
def matchedQuestions (t : ℚ) : List ℚ → List Question → Option (List Question)
  | [], _ => some []
  | s :: sims, [] =>
      if t ≤ s then none else matchedQuestions t sims []
  | s :: sims, q :: qrest =>
      if t ≤ s then (matchedQuestions t sims qrest).map (q :: ·)
      else matchedQuestions t sims qrest

/-- Constructor arguments of the `sklearn.cluster.AgglomerativeClustering`
instance built in `api.group_similar_questions`. -/
structure ClusterSpec where
  n_clusters : Option ℕ
  metric : String
  linkage : String
  distance_threshold : ℚ
deriving DecidableEq, Repr

/-- The distinct labels of a label list in order of first occurrence —
the key order of the insertion-ordered `groups` dict built by
`group_similar_questions`. -/
def labelOrder (labels : List ℤ) : List ℤ :=
  labels.foldl (fun acc l => if l ∈ acc then acc else acc ++ [l]) []

/-- The members of one cluster: the questions at the positions carrying
label `l`, in input order (`groups[label].append(questions[i])` appends
in increasing `i`). -/
def clusterOf (labels : List ℤ) (qs : List Question) (l : ℤ) : List Question :=
  ((labels.zip qs).filter (fun p => p.1 = l)).map Prod.snd

/-- The `groups.values()` list of `api.group_similar_questions`: one
group per distinct label in first-occurrence order, each listing its
questions in input order.  The Python loop indexes `questions[i]` for
every `i` below `len(labels)`, so it raises `IndexError` (modelled as
`none`) exactly when the label list is longer than the corpus. -/
def clusterGroups (labels : List ℤ) (qs : List Question) :
    Option (List (List Question)) :=
  if qs.length < labels.length then none
  else some ((labelOrder labels).map (clusterOf labels qs))

/-- The JSON body/status pairs `api.check_similarity` can produce, one
constructor per `return` site (plus `keyErrorUnhandled` for the
`KeyError` raised by `data['embedding_provider']` /
`data['reasoning_provider']` outside every `try`, which escapes to the
framework's 500 handler). -/
inductive CheckResponse where
  | keyErrorUnhandled
  | configError
  | serviceUnavailable (msg : String)
  | internalError
  | invalidQuestion
  | resourceNotFound
  | noExisting
  | embedFailed
  | yes (matched : List Question)
  | noMatch
deriving DecidableEq, Repr

/-- The HTTP status code attached to each `check_similarity` response. -/
def CheckResponse.statusCode : CheckResponse → ℕ
  | .keyErrorUnhandled => 500
  | .configError => 500
  | .serviceUnavailable _ => 503
  | .internalError => 500
  | .invalidQuestion => 400
  | .resourceNotFound => 404
  | .noExisting => 200
  | .embedFailed => 500
  | .yes _ => 200
  | .noMatch => 200

/-- Whether a `check_similarity` response is one of the successful
(HTTP 200, `{"response": ...}`) outcomes. -/
def CheckResponse.isSuccess : CheckResponse → Bool
  | .noExisting => true
  | .yes _ => true
  | .noMatch => true
  | _ => false

/-- Which external calls `check_similarity` performed, in pipeline
order; `embedArg` records the exact text batch handed to
`get_embeddings` when it was called. -/
structure CallTrace where
  validateCalled : Bool
  fetchCalled : Bool
  embedArg : Option (List String)
deriving DecidableEq, Repr

/-- The oracle inputs of one `check_similarity` request: the reasoning
and embedding provider environments, the fetch result, and
`cosRow a bs`, the first row of `sklearn cosine_similarity([a], bs)`. -/
structure CheckOracles where
  reasoningEnv : ReasoningEnv
  fetch : FetchResult
  embedEnv : EmbedEnv
  cosRow : List ℚ → List (List ℚ) → List ℚ

/-- A schema-validated `/check_similarity` payload.  The marshmallow
schema marks the provider fields `required=False` with no default, so a
valid payload may lack them; `none` models an absent key. -/
structure CheckRequest where
  question : String
  questions_url : String
  embedding_provider : Option String
  reasoning_provider : Option String

/-- `api.check_similarity` after schema validation, as a function of the
configuration, the external-call oracles and the request.  Mirrors the
source line by line: provider fields are subscripted outside the `try`
(KeyError on absence); both models are resolved and checked with
`all([...])` before any provider call; then, inside the `try`: quality
validation, corpus fetch (distinguishing `None` from `[]`), embedding of
`[question] + cleaned corpus texts`, cosine scoring and threshold
filtering.  `AIServiceUnavailableError` maps to 503, any other exception
to the generic 500. -/
def check_similarity (cfg : AppConfig) (o : CheckOracles) (req : CheckRequest) :
    CheckResponse × CallTrace :=
  match req.embedding_provider, req.reasoning_provider with
  | some ep, some rp =>
    let em := get_model_from_provider cfg "embedding" ep
    let rm := get_model_from_provider cfg "reasoning" rp
    if em = none ∨ rm = none then
      (.configError, ⟨false, false, none⟩)
    else
      match validate_question_quality rp o.reasoningEnv with
      | .error (.aiServiceUnavailable m) =>
          (.serviceUnavailable m, ⟨true, false, none⟩)
      | .error _ => (.internalError, ⟨true, false, none⟩)
      | .ok false => (.invalidQuestion, ⟨true, false, none⟩)
      | .ok true =>
        match o.fetch with
        | .failure => (.resourceNotFound, ⟨true, true, none⟩)
        | .ok qs =>
          if qs.isEmpty then (.noExisting, ⟨true, true, none⟩)
          else
            let all_texts := req.question :: questionTexts qs
            match get_embeddings ep o.embedEnv with
            | .error (.aiServiceUnavailable m) =>
                (.serviceUnavailable m, ⟨true, true, some all_texts⟩)
            | .error _ => (.internalError, ⟨true, true, some all_texts⟩)
            | .ok [] => (.embedFailed, ⟨true, true, some all_texts⟩)
            | .ok (v0 :: vrest) =>
              let sims := o.cosRow v0 vrest
              match matchedQuestions cfg.threshold sims qs with
              | none => (.internalError, ⟨true, true, some all_texts⟩)
              | some m =>
                  if m.isEmpty then (.noMatch, ⟨true, true, some all_texts⟩)
                  else (.yes m, ⟨true, true, some all_texts⟩)
  | _, _ => (.keyErrorUnhandled, ⟨false, false, none⟩)

/-- The JSON body/status pairs `api.group_similar_questions` can
produce, one constructor per `return` site. -/
inductive GroupResponse where
  | keyErrorUnhandled
  | configError
  | serviceUnavailable (msg : String)
  | internalError
  | notEnough
  | embedFailed
  | yes (groups : List (List Question))
  | noGroups
deriving DecidableEq, Repr

/-- The HTTP status code attached to each `group_similar_questions`
response. -/
def GroupResponse.statusCode : GroupResponse → ℕ
  | .keyErrorUnhandled => 500
  | .configError => 500
  | .serviceUnavailable _ => 503
  | .internalError => 500
  | .notEnough => 200
  | .embedFailed => 500
  | .yes _ => 200
  | .noGroups => 200

/-- Whether a `group_similar_questions` response is one of the
successful (HTTP 200, `{"response": ...}`) outcomes. -/
def GroupResponse.isSuccess : GroupResponse → Bool
  | .notEnough => true
  | .yes _ => true
  | .noGroups => true
  | _ => false

/-- Which external calls `group_similar_questions` performed:
`embedArg` is the text batch handed to `get_embeddings` (if called) and
`clusterArg` the constructor arguments of the
`AgglomerativeClustering` instance (if built). -/
structure GroupTrace where
  fetchCalled : Bool
  embedArg : Option (List String)
  clusterArg : Option ClusterSpec
deriving DecidableEq, Repr

/-- The oracle inputs of one `group_similar_questions` request:
`fit spec vecs` is the `labels_` array produced by
`AgglomerativeClustering(**spec).fit(vecs)`. -/
structure GroupOracles where
  fetch : FetchResult
  embedEnv : EmbedEnv
  fit : ClusterSpec → List (List ℚ) → List ℤ

/-- A schema-validated `/group_similar_questions` payload;
`embedding_provider` is optional in the schema with no default. -/
structure GroupRequest where
  questions_url : String
  embedding_provider : Option String

/-- `api.group_similar_questions` after schema validation.  Mirrors the
source: `data['embedding_provider']` outside the `try` (KeyError on
absence); model resolution; then, inside the `try`: fetch — where
`if not questions or len(questions) < 2` lumps a failed fetch (`None`)
together with a short corpus and returns the 200 "Not enough questions"
body — embedding, clustering with
`n_clusters=None, metric='cosine', linkage='average',
distance_threshold=1-threshold`, grouping by label, and the
`len(group) > 1` filter. -/
def group_similar_questions (cfg : AppConfig) (o : GroupOracles)
    (req : GroupRequest) : GroupResponse × GroupTrace :=
  match req.embedding_provider with
  | none => (.keyErrorUnhandled, ⟨false, none, none⟩)
  | some ep =>
    if get_model_from_provider cfg "embedding" ep = none then
      (.configError, ⟨false, none, none⟩)
    else
      match o.fetch with
      | .failure => (.notEnough, ⟨true, none, none⟩)
      | .ok qs =>
        if qs.length < 2 then (.notEnough, ⟨true, none, none⟩)
        else
          let texts := questionTexts qs
          match get_embeddings ep o.embedEnv with
          | .error (.aiServiceUnavailable m) =>
              (.serviceUnavailable m, ⟨true, some texts, none⟩)
          | .error _ => (.internalError, ⟨true, some texts, none⟩)
          | .ok [] => (.embedFailed, ⟨true, some texts, none⟩)
          | .ok (v0 :: vrest) =>
            let spec : ClusterSpec :=
              ⟨none, "cosine", "average", 1 - cfg.threshold⟩
            let labels := o.fit spec (v0 :: vrest)
            match clusterGroups labels qs with
            | none => (.internalError, ⟨true, some texts, some spec⟩)
            | some gs =>
              let matched_groups := gs.filter (fun g => 1 < g.length)
              if matched_groups.isEmpty then
                (.noGroups, ⟨true, some texts, some spec⟩)
              else (.yes matched_groups, ⟨true, some texts, some spec⟩)

/-! ## Supporting lemmas -/

/-- When the similarity row is no longer than the corpus (the shape the
provider and scikit-learn guarantee), the comprehension never hits an
`IndexError` and computes the threshold filter over the zipped lists. -/
theorem matchedQuestions_eq_filter (t : ℚ) :
    ∀ (sims : List ℚ) (qs : List Question), sims.length ≤ qs.length →
      matchedQuestions t sims qs =
        some (((sims.zip qs).filter (fun p => t ≤ p.1)).map Prod.snd)
  | [], _, _ => by simp [matchedQuestions]
  | s :: sims, [], h => by simp at h
  | s :: sims, q :: qrest, h => by
      have hle : sims.length ≤ qrest.length := Nat.succ_le_succ_iff.mp h
      by_cases hts : t ≤ s
      · simp [matchedQuestions, hts, matchedQuestions_eq_filter t sims qrest hle,
          List.filter_cons]
      · simp [matchedQuestions, hts, matchedQuestions_eq_filter t sims qrest hle,
          List.filter_cons]

/-- Raising the threshold can only shrink the comprehension's result:
the matches at the higher threshold form a sublist of the matches at
the lower one. -/
theorem matchedQuestions_anti (t1 t2 : ℚ) (h12 : t1 ≤ t2) :
    ∀ (sims : List ℚ) (qs m1 m2 : List Question),
      matchedQuestions t1 sims qs = some m1 →
      matchedQuestions t2 sims qs = some m2 →
      m2.Sublist m1
  | [], qs, m1, m2, e1, e2 => by
      simp only [matchedQuestions] at e1 e2
      injection e1 with e1; injection e2 with e2
      rw [← e1, ← e2]
  | s :: sims, [], m1, m2, e1, e2 => by
      by_cases h1 : t1 ≤ s
      · simp [matchedQuestions, h1] at e1
      · have h2 : ¬ t2 ≤ s := fun hc => h1 (le_trans h12 hc)
        simp only [matchedQuestions, if_neg h1, if_neg h2] at e1 e2
        exact matchedQuestions_anti t1 t2 h12 sims [] m1 m2 e1 e2
  | s :: sims, q :: qrest, m1, m2, e1, e2 => by
      by_cases h2 : t2 ≤ s
      · have h1 : t1 ≤ s := le_trans h12 h2
        simp only [matchedQuestions, if_pos h1, if_pos h2] at e1 e2
        obtain ⟨m1t, hm1t, rfl⟩ := Option.map_eq_some'.mp e1
        obtain ⟨m2t, hm2t, rfl⟩ := Option.map_eq_some'.mp e2
        exact (matchedQuestions_anti t1 t2 h12 sims qrest m1t m2t hm1t hm2t).cons₂ q
      · by_cases h1 : t1 ≤ s
        · simp only [matchedQuestions, if_pos h1, if_neg h2] at e1 e2
          obtain ⟨m1t, hm1t, rfl⟩ := Option.map_eq_some'.mp e1
          exact (matchedQuestions_anti t1 t2 h12 sims qrest m1t m2 hm1t e2).cons q
        · simp only [matchedQuestions, if_neg h1, if_neg h2] at e1 e2
          exact matchedQuestions_anti t1 t2 h12 sims qrest m1 m2 e1 e2

/-- The second components of a zip form a sublist of the second input. -/
theorem map_snd_zip_sublist {α β : Type} :
    ∀ (l1 : List α) (l2 : List β), ((l1.zip l2).map Prod.snd).Sublist l2
  | _, [] => by simp
  | [], _ :: _ => by simp
  | _ :: l1, b :: l2 => (map_snd_zip_sublist l1 l2).cons₂ b

/-- Each cluster lists its questions in input order: it is a sublist of
the fetched corpus. -/
theorem clusterOf_sublist (labels : List ℤ) (qs : List Question) (l : ℤ) :
    (clusterOf labels qs l).Sublist qs :=
  ((List.filter_sublist _).map Prod.snd).trans (map_snd_zip_sublist labels qs)

/-- Folding the insertion-order accumulator preserves and collects
membership. -/
theorem labelOrder_fold_mem (x : ℤ) :
    ∀ (labels acc : List ℤ),
      (x ∈ labels.foldl (fun a l => if l ∈ a then a else a ++ [l]) acc ↔
        x ∈ acc ∨ x ∈ labels)
  | [], acc => by simp
  | l :: labels, acc => by
      rw [List.foldl_cons, labelOrder_fold_mem x labels]
      by_cases hl : l ∈ acc
      · simp only [if_pos hl, List.mem_cons]
        constructor
        · rintro (h | h)
          · exact Or.inl h
          · exact Or.inr (Or.inr h)
        · rintro (h | rfl | h)
          · exact Or.inl h
          · exact Or.inl hl
          · exact Or.inr h
      · simp only [if_neg hl, List.mem_append, List.mem_singleton, List.mem_cons]
        tauto

/-- A label occurs in the first-occurrence ordering iff it occurs in the
label list. -/
theorem mem_labelOrder (x : ℤ) (labels : List ℤ) :
    x ∈ labelOrder labels ↔ x ∈ labels := by
  rw [labelOrder, labelOrder_fold_mem]; simp

/-- The matched list carried by a `check_similarity` response (`[]` for
every response without one). -/
def matchedOf : CheckResponse → List Question
  | .yes m => m
  | _ => []

/-! ## Concrete fixtures used by witnesses and counterexamples -/

/-- Configuration with every model key set and threshold `1/2`. -/
def cfgTest : AppConfig := ⟨fun _ => some "model-x", 1/2⟩

/-- Configuration with no model keys set. -/
def cfgNoModels : AppConfig := ⟨fun _ => none, 1/2⟩

def qAlpha : Question := ⟨some "What is X?", [("id", "1")]⟩

def qBeta : Question := ⟨some "What is Y?", [("id", "2")]⟩

def qGamma : Question := ⟨some "What is Z?", [("id", "3")]⟩

/-- Reasoning environment with both clients up and the provider
answering with a well-formed positive verdict. -/
def rEnvOK : ReasoningEnv := ⟨true, true, .returned (.objIsValid true)⟩

/-- Embedding environment with the client up and vectors returned. -/
def embOK (vs : List (List ℚ)) : EmbedEnv := ⟨true, .ok vs⟩

def reqFix : CheckRequest :=
  ⟨"What is X??", "http://corpus.example/qs", some "gemini", some "gemini"⟩

def reqGFix : GroupRequest := ⟨"http://corpus.example/qs", some "gemini"⟩

/-- Benign check oracles: two corpus records, embeddings for all three
texts, similarity row `[1, 0]`. -/
def oCheckHappy : CheckOracles :=
  ⟨rEnvOK, .ok [qAlpha, qBeta], embOK [[1, 0], [1, 0], [0, 1]], fun _ _ => [1, 0]⟩

/-- Benign grouping oracles: two corpus records clustering together. -/
def oGroupHappy : GroupOracles :=
  ⟨.ok [qAlpha, qBeta], embOK [[1, 0], [1, 0]], fun _ _ => [0, 0]⟩

/-! ## Claims -/

/-- **C6**: a grouping request whose fetched corpus has fewer than two
items returns the 200 "Not enough questions" response, and the
embedding provider is never called (the trace records no embedding
batch). -/
theorem claim_C6 (cfg : AppConfig) (o : GroupOracles) (req : GroupRequest)
    (ep : String) (qs : List Question)
    (h1 : req.embedding_provider = some ep)
    (h2 : get_model_from_provider cfg "embedding" ep ≠ none)
    (h3 : o.fetch = .ok qs) (h4 : qs.length < 2) :
    group_similar_questions cfg o req = (.notEnough, ⟨true, none, none⟩) ∧
    GroupResponse.statusCode .notEnough = 200 ∧
    (group_similar_questions cfg o req).2.embedArg = none := by
  have hmain : group_similar_questions cfg o req = (.notEnough, ⟨true, none, none⟩) := by
    simp only [group_similar_questions, h1, h3, if_neg h2, if_pos h4]
  exact ⟨hmain, rfl, by rw [hmain]⟩

/-- Witness for C6 at a one-record corpus. -/
theorem claim_C6_witness :
    group_similar_questions cfgTest ⟨.ok [qAlpha], embOK [], fun _ _ => []⟩ reqGFix =
      (.notEnough, ⟨true, none, none⟩) :=
  (claim_C6 cfgTest ⟨.ok [qAlpha], embOK [], fun _ _ => []⟩ reqGFix "gemini" [qAlpha]
    rfl (by decide) rfl (by decide)).1

/-- **C7**: the model resolver depends on exactly the configuration key
`uppercase(provider) ++ "_" ++ uppercase(capability) ++ "_MODEL"`, a
configured non-empty mapping is returned verbatim (no fallback), and a
missing mapping makes either endpoint fail with the configuration error
before any provider call (the trace records neither a quality-validation
call nor an embedding batch). -/
theorem claim_C7 :
    (∀ cfg cfg2 : AppConfig, ∀ t p : String,
       cfg.config (p.toUpper ++ "_" ++ t.toUpper ++ "_MODEL") =
         cfg2.config (p.toUpper ++ "_" ++ t.toUpper ++ "_MODEL") →
       get_model_from_provider cfg t p = get_model_from_provider cfg2 t p) ∧
    (∀ cfg : AppConfig, ∀ t p s : String,
       cfg.config (p.toUpper ++ "_" ++ t.toUpper ++ "_MODEL") = some s → s ≠ "" →
       get_model_from_provider cfg t p = some s) ∧
    (∀ (cfg : AppConfig) (o : CheckOracles) (req : CheckRequest) (ep rp : String),
       req.embedding_provider = some ep → req.reasoning_provider = some rp →
       (get_model_from_provider cfg "embedding" ep = none ∨
        get_model_from_provider cfg "reasoning" rp = none) →
       check_similarity cfg o req = (.configError, ⟨false, false, none⟩)) ∧
    (∀ (cfg : AppConfig) (o : GroupOracles) (req : GroupRequest) (ep : String),
       req.embedding_provider = some ep →
       get_model_from_provider cfg "embedding" ep = none →
       group_similar_questions cfg o req = (.configError, ⟨false, none, none⟩)) := by
  refine ⟨?_, ?_, ?_, ?_⟩
  · intro cfg cfg2 t p h
    simp only [get_model_from_provider, h]
  · intro cfg t p s hs hne
    simp only [get_model_from_provider, hs, if_neg hne]
  · intro cfg o req ep rp h1 h2 hmiss
    simp only [check_similarity, h1, h2, if_pos hmiss]
  · intro cfg o req ep h1 hmiss
    simp only [group_similar_questions, h1, if_pos hmiss]

/-- Witness for C7: with no model keys configured both endpoints return
the configuration error with an empty call trace. -/
theorem claim_C7_witness :
    check_similarity cfgNoModels oCheckHappy reqFix =
      (.configError, ⟨false, false, none⟩) ∧
    group_similar_questions cfgNoModels oGroupHappy reqGFix =
      (.configError, ⟨false, none, none⟩) :=
  ⟨claim_C7.2.2.1 cfgNoModels oCheckHappy reqFix "gemini" "gemini" rfl rfl (Or.inl rfl),
   claim_C7.2.2.2 cfgNoModels oGroupHappy reqGFix "gemini" rfl rfl⟩

/-- **C9 (as amended)**: a schema-valid similarity-check payload that
omits `embedding_provider` or `reasoning_provider` does not complete
with a default provider; the handler's `data['embedding_provider']` /
`data['reasoning_provider']` subscript raises an uncaught `KeyError`,
which surfaces as the framework's 500 error, before any external
call. -/
theorem claim_C9 (cfg : AppConfig) (o : CheckOracles) (req : CheckRequest)
    (h : req.embedding_provider = none ∨ req.reasoning_provider = none) :
    check_similarity cfg o req = (.keyErrorUnhandled, ⟨false, false, none⟩) ∧
    CheckResponse.statusCode .keyErrorUnhandled = 500 ∧
    CheckResponse.isSuccess .keyErrorUnhandled = false := by
  refine ⟨?_, rfl, rfl⟩
  rcases h with h | h
  · cases hr : req.reasoning_provider <;> simp only [check_similarity, h, hr]
  · cases he : req.embedding_provider <;> simp only [check_similarity, h, he]

/-- Witness for C9: a payload lacking `reasoning_provider`. -/
theorem claim_C9_witness :
    check_similarity cfgTest oCheckHappy
        ⟨"What is X??", "http://corpus.example/qs", some "gemini", none⟩ =
      (.keyErrorUnhandled, ⟨false, false, none⟩) :=
  (claim_C9 cfgTest oCheckHappy
    ⟨"What is X??", "http://corpus.example/qs", some "gemini", none⟩ (Or.inr rfl)).1

/-- Counterexample to C9 as stated: at a concrete payload lacking
`embedding_provider` (schema-valid, since the field is
`required=False`), the operation does not complete with a default
provider — it ends in the unhandled-`KeyError` 500 response, which is
not a successful outcome. -/
theorem claim_C9_counterexample :
    (check_similarity cfgTest oCheckHappy
        ⟨"What is X??", "http://corpus.example/qs", none, some "gemini"⟩).1 =
      .keyErrorUnhandled ∧
    CheckResponse.isSuccess .keyErrorUnhandled = false ∧
    CheckResponse.statusCode .keyErrorUnhandled = 500 :=
  ⟨rfl, rfl, rfl⟩

/-- **C1 (as amended)**: when the corpus fetch fails, the
similarity-check endpoint surfaces the distinct 404 resource-not-found
error; the grouping endpoint, whose guard
`if not questions or len(questions) < 2` absorbs the fetch failure,
instead returns the successful 200 "Not enough questions" response. -/
theorem claim_C1 (cfg : AppConfig) (oc : CheckOracles) (og : GroupOracles)
    (reqc : CheckRequest) (reqg : GroupRequest) (ep rp gp : String)
    (h1 : reqc.embedding_provider = some ep)
    (h2 : reqc.reasoning_provider = some rp)
    (h3 : get_model_from_provider cfg "embedding" ep ≠ none)
    (h4 : get_model_from_provider cfg "reasoning" rp ≠ none)
    (h5 : validate_question_quality rp oc.reasoningEnv = .ok true)
    (h6 : oc.fetch = .failure)
    (h7 : reqg.embedding_provider = some gp)
    (h8 : get_model_from_provider cfg "embedding" gp ≠ none)
    (h9 : og.fetch = .failure) :
    check_similarity cfg oc reqc = (.resourceNotFound, ⟨true, true, none⟩) ∧
    CheckResponse.statusCode .resourceNotFound = 404 ∧
    CheckResponse.isSuccess .resourceNotFound = false ∧
    group_similar_questions cfg og reqg = (.notEnough, ⟨true, none, none⟩) ∧
    GroupResponse.statusCode .notEnough = 200 ∧
    GroupResponse.isSuccess .notEnough = true := by
  refine ⟨?_, rfl, rfl, ?_, rfl, rfl⟩
  · simp only [check_similarity, h1, h2, h5, h6]
    rw [if_neg (not_or.mpr ⟨h3, h4⟩)]
  · simp only [group_similar_questions, h7, h9, if_neg h8]

/-- Witness for C1 (amended) at concrete failing fetches. -/
theorem claim_C1_witness :
    check_similarity cfgTest ⟨rEnvOK, .failure, embOK [], fun _ _ => []⟩ reqFix =
      (.resourceNotFound, ⟨true, true, none⟩) ∧
    group_similar_questions cfgTest ⟨.failure, embOK [], fun _ _ => []⟩ reqGFix =
      (.notEnough, ⟨true, none, none⟩) := by
  have h := claim_C1 cfgTest ⟨rEnvOK, .failure, embOK [], fun _ _ => []⟩
    ⟨.failure, embOK [], fun _ _ => []⟩ reqFix reqGFix "gemini" "gemini" "gemini"
    rfl rfl (by decide) (by decide) rfl rfl rfl (by decide) rfl
  exact ⟨h.1, h.2.2.2.1⟩

/-- Counterexample to C1 as stated: at a concrete request whose corpus
fetch fails, the grouping operation does not surface a
resource-not-found-class error — it returns the successful 200
"Not enough questions" body. -/
theorem claim_C1_counterexample :
    (group_similar_questions cfgTest
        ⟨.failure, embOK [], fun _ _ => []⟩ reqGFix).1 = .notEnough ∧
    GroupResponse.isSuccess .notEnough = true ∧
    GroupResponse.statusCode .notEnough ≠ 404 := by
  refine ⟨?_, rfl, by decide⟩
  simp only [group_similar_questions, reqGFix, if_neg (show
    get_model_from_provider cfgTest "embedding" "gemini" ≠ none by decide)]

/-- Reduction of `check_similarity` on a run that reaches the scoring
stage: non-empty corpus, positive validation, embeddings returned, and a
similarity row no longer than the corpus. -/
theorem check_similarity_scored (cfg : AppConfig) (o : CheckOracles) (req : CheckRequest)
    (ep rp : String) (qs : List Question) (v0 : List ℚ) (vrest : List (List ℚ))
    (h1 : req.embedding_provider = some ep) (h2 : req.reasoning_provider = some rp)
    (h3 : get_model_from_provider cfg "embedding" ep ≠ none)
    (h4 : get_model_from_provider cfg "reasoning" rp ≠ none)
    (h5 : validate_question_quality rp o.reasoningEnv = .ok true)
    (h6 : o.fetch = .ok qs) (hne : qs ≠ [])
    (h7 : get_embeddings ep o.embedEnv = .ok (v0 :: vrest))
    (h8 : (o.cosRow v0 vrest).length ≤ qs.length) :
    check_similarity cfg o req =
      (if (((o.cosRow v0 vrest).zip qs).filter (fun p => cfg.threshold ≤ p.1)).map Prod.snd = []
       then CheckResponse.noMatch
       else .yes ((((o.cosRow v0 vrest).zip qs).filter (fun p => cfg.threshold ≤ p.1)).map Prod.snd),
       ⟨true, true, some (req.question :: questionTexts qs)⟩) := by
  have hie : qs.isEmpty = false := by
    cases qs with
    | nil => exact absurd rfl hne
    | cons a l => rfl
  simp only [check_similarity, h1, h2, h5, h6, h7, hie]
  rw [if_neg (not_or.mpr ⟨h3, h4⟩)]
  rw [matchedQuestions_eq_filter cfg.threshold (o.cosRow v0 vrest) qs h8]
  by_cases hm :
      (((o.cosRow v0 vrest).zip qs).filter (fun p => cfg.threshold ≤ p.1)).map Prod.snd = []
  · simp [hm]
  · simp [hm, List.isEmpty_iff]

/-- Reduction of `group_similar_questions` on a run that reaches the
clustering stage. -/
theorem group_similar_questions_clustered (cfg : AppConfig) (o : GroupOracles)
    (req : GroupRequest) (ep : String) (qs : List Question)
    (v0 : List ℚ) (vrest : List (List ℚ))
    (h1 : req.embedding_provider = some ep)
    (h2 : get_model_from_provider cfg "embedding" ep ≠ none)
    (h3 : o.fetch = .ok qs) (h4 : 2 ≤ qs.length)
    (h5 : get_embeddings ep o.embedEnv = .ok (v0 :: vrest))
    (h6 : (o.fit ⟨none, "cosine", "average", 1 - cfg.threshold⟩ (v0 :: vrest)).length ≤ qs.length) :
    group_similar_questions cfg o req =
      (let labels := o.fit ⟨none, "cosine", "average", 1 - cfg.threshold⟩ (v0 :: vrest)
       let matched := ((labelOrder labels).map (clusterOf labels qs)).filter (fun g => 1 < g.length)
       ((if matched = [] then GroupResponse.noGroups else .yes matched),
        ⟨true, some (questionTexts qs), some ⟨none, "cosine", "average", 1 - cfg.threshold⟩⟩)) := by
  simp only [group_similar_questions, h1, h3, h5, if_neg h2, if_neg (Nat.not_lt.mpr h4)]
  simp only [clusterGroups, if_neg (Nat.not_lt.mpr h6)]
  by_cases hm :
      ((labelOrder (o.fit ⟨none, "cosine", "average", 1 - cfg.threshold⟩ (v0 :: vrest))).map
          (clusterOf (o.fit ⟨none, "cosine", "average", 1 - cfg.threshold⟩ (v0 :: vrest)) qs)).filter
        (fun g => 1 < g.length) = []
  · simp [hm]
  · simp [hm, List.isEmpty_iff]

/-- **C4**: on a similarity check that reaches scoring, the matched
list is exactly the corpus records whose similarity score clears the
threshold (`score >= threshold`), each the original record, in original
corpus order (a sublist of the corpus); an empty corpus and a cleared
corpus both produce a successful 200 "no" response, never an error. -/
theorem claim_C4 (cfg : AppConfig) (o : CheckOracles) (req : CheckRequest)
    (ep rp : String) (qs : List Question) (v0 : List ℚ) (vrest : List (List ℚ))
    (h1 : req.embedding_provider = some ep) (h2 : req.reasoning_provider = some rp)
    (h3 : get_model_from_provider cfg "embedding" ep ≠ none)
    (h4 : get_model_from_provider cfg "reasoning" rp ≠ none)
    (h5 : validate_question_quality rp o.reasoningEnv = .ok true)
    (h6 : o.fetch = .ok qs)
    (h7 : get_embeddings ep o.embedEnv = .ok (v0 :: vrest))
    (h8 : (o.cosRow v0 vrest).length ≤ qs.length) :
    (qs = [] →
       (check_similarity cfg o req).1 = .noExisting ∧
       CheckResponse.statusCode .noExisting = 200 ∧
       CheckResponse.isSuccess .noExisting = true) ∧
    (qs ≠ [] →
       ∀ m, m = (((o.cosRow v0 vrest).zip qs).filter (fun p => cfg.threshold ≤ p.1)).map Prod.snd →
       (check_similarity cfg o req).1 = (if m = [] then .noMatch else .yes m) ∧
       m.Sublist qs ∧
       (check_similarity cfg o req).1.statusCode = 200 ∧
       (check_similarity cfg o req).1.isSuccess = true) := by
  constructor
  · rintro rfl
    refine ⟨?_, rfl, rfl⟩
    simp only [check_similarity, h1, h2, h5, h6]
    rw [if_neg (not_or.mpr ⟨h3, h4⟩)]
    simp
  · rintro hne m rfl
    have hrun := check_similarity_scored cfg o req ep rp qs v0 vrest
      h1 h2 h3 h4 h5 h6 hne h7 h8
    have hsub :
        ((((o.cosRow v0 vrest).zip qs).filter (fun p => cfg.threshold ≤ p.1)).map Prod.snd).Sublist qs :=
      ((List.filter_sublist _).map Prod.snd).trans (map_snd_zip_sublist _ qs)
    rw [hrun]
    by_cases hm :
        (((o.cosRow v0 vrest).zip qs).filter (fun p => cfg.threshold ≤ p.1)).map Prod.snd = []
    · simp [hm, hsub, CheckResponse.statusCode, CheckResponse.isSuccess]
    · simp [hm, hsub, CheckResponse.statusCode, CheckResponse.isSuccess]

/-- Witness for C4: one corpus record scoring `1 ≥ 1/2`, one scoring
`0 < 1/2`; the response is "yes" carrying exactly the first record. -/
theorem claim_C4_witness :
    (check_similarity cfgTest oCheckHappy reqFix).1 = .yes [qAlpha] := by
  have h := (claim_C4 cfgTest oCheckHappy reqFix "gemini" "gemini" [qAlpha, qBeta]
    [1, 0] [[1, 0], [0, 1]] rfl rfl (by decide) (by decide) rfl rfl rfl
    (by decide)).2 (by decide) [qAlpha] (by norm_num [oCheckHappy, cfgTest, qAlpha, qBeta])
  exact h.1.trans (by norm_num)

/-- **C8**: for the same request, configuration and oracles, raising
the similarity threshold can only shrink the matched set: the matches
at the higher threshold are a sublist (hence a subset) of the matches
at the lower threshold. -/
theorem claim_C8 (cfg : AppConfig) (o : CheckOracles) (req : CheckRequest)
    (t1 t2 : ℚ) (h12 : t1 < t2)
    (ep rp : String) (qs : List Question) (v0 : List ℚ) (vrest : List (List ℚ))
    (h1 : req.embedding_provider = some ep) (h2 : req.reasoning_provider = some rp)
    (h3 : get_model_from_provider cfg "embedding" ep ≠ none)
    (h4 : get_model_from_provider cfg "reasoning" rp ≠ none)
    (h5 : validate_question_quality rp o.reasoningEnv = .ok true)
    (h6 : o.fetch = .ok qs)
    (h7 : get_embeddings ep o.embedEnv = .ok (v0 :: vrest))
    (h8 : (o.cosRow v0 vrest).length ≤ qs.length) :
    (matchedOf (check_similarity { cfg with threshold := t2 } o req).1).Sublist
      (matchedOf (check_similarity { cfg with threshold := t1 } o req).1) ∧
    matchedOf (check_similarity { cfg with threshold := t2 } o req).1 ⊆
      matchedOf (check_similarity { cfg with threshold := t1 } o req).1 := by
  have h3t : ∀ t : ℚ,
      get_model_from_provider { cfg with threshold := t } "embedding" ep ≠ none := fun _ => h3
  have h4t : ∀ t : ℚ,
      get_model_from_provider { cfg with threshold := t } "reasoning" rp ≠ none := fun _ => h4
  have key : (matchedOf (check_similarity { cfg with threshold := t2 } o req).1).Sublist
      (matchedOf (check_similarity { cfg with threshold := t1 } o req).1) := by
    by_cases hne : qs = []
    · subst hne
      have e1 : (check_similarity { cfg with threshold := t1 } o req).1 = .noExisting := by
        simp only [check_similarity, h1, h2, h5, h6]
        rw [if_neg (not_or.mpr ⟨h3t t1, h4t t1⟩)]
        simp
      have e2 : (check_similarity { cfg with threshold := t2 } o req).1 = .noExisting := by
        simp only [check_similarity, h1, h2, h5, h6]
        rw [if_neg (not_or.mpr ⟨h3t t2, h4t t2⟩)]
        simp
      rw [e1, e2]
    · have e1 := check_similarity_scored { cfg with threshold := t1 } o req ep rp qs v0 vrest
        h1 h2 (h3t t1) (h4t t1) h5 h6 hne h7 h8
      have e2 := check_similarity_scored { cfg with threshold := t2 } o req ep rp qs v0 vrest
        h1 h2 (h3t t2) (h4t t2) h5 h6 hne h7 h8
      have f1 := matchedQuestions_eq_filter t1 (o.cosRow v0 vrest) qs h8
      have f2 := matchedQuestions_eq_filter t2 (o.cosRow v0 vrest) qs h8
      have hanti := matchedQuestions_anti t1 t2 (le_of_lt h12) (o.cosRow v0 vrest) qs _ _ f1 f2
      have hmOf : ∀ m : List Question,
          matchedOf (if m = [] then CheckResponse.noMatch else .yes m) = m := by
        intro m
        by_cases hm : m = [] <;> simp [matchedOf, hm]
      rw [e1, e2]
      simpa only [hmOf] using hanti
  exact ⟨key, key.subset⟩

/-- Witness for C8: thresholds `1/2 < 3/4` on a row scoring `[1, 3/5]`
match `[qAlpha, qBeta]` at the low threshold and only `[qAlpha]` at the
high one. -/
theorem claim_C8_witness :
    (matchedOf (check_similarity { cfgTest with threshold := (3:ℚ)/4 }
        ⟨rEnvOK, .ok [qAlpha, qBeta], embOK [[1, 0], [1, 0], [0, 1]], fun _ _ => [1, 3/5]⟩
        reqFix).1).Sublist
      (matchedOf (check_similarity { cfgTest with threshold := (1:ℚ)/2 }
        ⟨rEnvOK, .ok [qAlpha, qBeta], embOK [[1, 0], [1, 0], [0, 1]], fun _ _ => [1, 3/5]⟩
        reqFix).1) :=
  (claim_C8 cfgTest
    ⟨rEnvOK, .ok [qAlpha, qBeta], embOK [[1, 0], [1, 0], [0, 1]], fun _ _ => [1, 3/5]⟩
    reqFix ((1:ℚ)/2) ((3:ℚ)/4) (by norm_num) "gemini" "gemini" [qAlpha, qBeta]
    [1, 0] [[1, 0], [0, 1]] rfl rfl (by decide) (by decide) rfl rfl rfl (by decide)).1

/-- **C5**: a grouping run that reaches clustering builds the
`AgglomerativeClustering` instance with no preset cluster count, cosine
metric, average linkage and stopping distance `1 - threshold`, and its
"matched groups" are exactly the clusters of size at least 2 — each
listing its records in input order (a sublist of the corpus), every
size-≥2 cluster reported, singletons never. -/
theorem claim_C5 (cfg : AppConfig) (o : GroupOracles) (req : GroupRequest)
    (ep : String) (qs : List Question) (v0 : List ℚ) (vrest : List (List ℚ))
    (spec : ClusterSpec) (labels : List ℤ) (matched : List (List Question))
    (h1 : req.embedding_provider = some ep)
    (h2 : get_model_from_provider cfg "embedding" ep ≠ none)
    (h3 : o.fetch = .ok qs) (h4 : 2 ≤ qs.length)
    (h5 : get_embeddings ep o.embedEnv = .ok (v0 :: vrest))
    (hspec : spec = ⟨none, "cosine", "average", 1 - cfg.threshold⟩)
    (hlabels : labels = o.fit spec (v0 :: vrest))
    (hlen : labels.length ≤ qs.length)
    (hmatched : matched =
      ((labelOrder labels).map (clusterOf labels qs)).filter (fun g => 1 < g.length)) :
    (group_similar_questions cfg o req).2.clusterArg = some spec ∧
    (group_similar_questions cfg o req).1 =
      (if matched = [] then .noGroups else .yes matched) ∧
    (∀ g ∈ matched, 2 ≤ g.length ∧ g.Sublist qs) ∧
    (∀ l ∈ labels, 2 ≤ (clusterOf labels qs l).length →
       clusterOf labels qs l ∈ matched) := by
  subst hspec; subst hlabels; subst hmatched
  have hrun := group_similar_questions_clustered cfg o req ep qs v0 vrest
    h1 h2 h3 h4 h5 hlen
  refine ⟨?_, ?_, ?_, ?_⟩
  · rw [hrun]
  · rw [hrun]
  · intro g hg
    obtain ⟨hmem, hpred⟩ := List.mem_filter.mp hg
    obtain ⟨l, _, rfl⟩ := List.mem_map.mp hmem
    exact ⟨of_decide_eq_true hpred, clusterOf_sublist _ qs l⟩
  · intro l hl hsize
    exact List.mem_filter.mpr
      ⟨List.mem_map_of_mem _ ((mem_labelOrder l _).mpr hl), decide_eq_true hsize⟩

/-- Grouping oracles for the C5 witness: three records where the first
and third cluster together (labels `[0, 1, 0]`). -/
def oGroupC5 : GroupOracles :=
  ⟨.ok [qAlpha, qBeta, qGamma], embOK [[1, 0], [0, 1], [1, 0]], fun _ _ => [0, 1, 0]⟩

/-- Witness for C5: the matched groups are exactly `[[qAlpha, qGamma]]`
(records in input order, the singleton `[qBeta]` dropped), and the
clustering was configured with cosine/average and distance
`1 - threshold`. -/
theorem claim_C5_witness :
    (group_similar_questions cfgTest oGroupC5 reqGFix).1 = .yes [[qAlpha, qGamma]] ∧
    (group_similar_questions cfgTest oGroupC5 reqGFix).2.clusterArg =
      some ⟨none, "cosine", "average", 1 - cfgTest.threshold⟩ := by
  have h := claim_C5 cfgTest oGroupC5 reqGFix "gemini" [qAlpha, qBeta, qGamma]
    [1, 0] [[0, 1], [1, 0]] ⟨none, "cosine", "average", 1 - cfgTest.threshold⟩
    [0, 1, 0] [[qAlpha, qGamma]] rfl (by decide) rfl (by decide) rfl rfl rfl
    (by decide) (by rfl)
  refine ⟨?_, h.1⟩
  rw [h.2.1]
  rfl

/-- **C10**: a corpus record with no `Question` key, or with an empty
`Question` text, is normalized to the empty string, keeps its position
in the text batch, and both pipelines hand the batch — with that record
still in place — to the embedding stage without raising an error. -/
theorem claim_C10 (qs : List Question) (i : ℕ) (q : Question)
    (hq : qs[i]? = some q)
    (hmiss : q.question = none ∨ q.question = some "") :
    (questionTexts qs)[i]? = some "" ∧
    (questionTexts qs).length = qs.length ∧
    (∀ (cfg : AppConfig) (o : CheckOracles) (req : CheckRequest) (ep rp : String)
       (v0 : List ℚ) (vrest : List (List ℚ)),
       req.embedding_provider = some ep → req.reasoning_provider = some rp →
       get_model_from_provider cfg "embedding" ep ≠ none →
       get_model_from_provider cfg "reasoning" rp ≠ none →
       validate_question_quality rp o.reasoningEnv = .ok true →
       o.fetch = .ok qs →
       get_embeddings ep o.embedEnv = .ok (v0 :: vrest) →
       (o.cosRow v0 vrest).length ≤ qs.length →
       (check_similarity cfg o req).2.embedArg =
         some (req.question :: questionTexts qs)) ∧
    (∀ (cfg : AppConfig) (o : GroupOracles) (req : GroupRequest) (ep : String)
       (v0 : List ℚ) (vrest : List (List ℚ)),
       req.embedding_provider = some ep →
       get_model_from_provider cfg "embedding" ep ≠ none →
       o.fetch = .ok qs → 2 ≤ qs.length →
       get_embeddings ep o.embedEnv = .ok (v0 :: vrest) →
       (o.fit ⟨none, "cosine", "average", 1 - cfg.threshold⟩ (v0 :: vrest)).length ≤ qs.length →
       (group_similar_questions cfg o req).2.embedArg = some (questionTexts qs)) := by
  have hne : qs ≠ [] := by
    intro h
    subst h
    simp at hq
  have htext : questionText q = "" := by
    rcases hmiss with h | h <;> simp [questionText, h, clean_html]
  refine ⟨?_, by simp [questionTexts], ?_, ?_⟩
  · rw [questionTexts, List.getElem?_map, hq, Option.map_some', htext]
  · intro cfg o req ep rp v0 vrest h1 h2 h3 h4 h5 h6 h7 h8
    rw [check_similarity_scored cfg o req ep rp qs v0 vrest h1 h2 h3 h4 h5 h6 hne h7 h8]
  · intro cfg o req ep v0 vrest h1 h2 h3 h4 h5 h6
    rw [group_similar_questions_clustered cfg o req ep qs v0 vrest h1 h2 h3 h4 h5 h6]

/-- A fetched record without a `Question` key. -/
def qNoKey : Question := ⟨none, [("id", "9")]⟩

/-- Check oracles whose corpus starts with a record lacking the
`Question` key. -/
def oCheckMiss : CheckOracles :=
  ⟨rEnvOK, .ok [qNoKey, qAlpha], embOK [[1, 0], [1, 0], [0, 1]], fun _ _ => [1, 0]⟩

/-- Witness for C10: the keyless record becomes `""` at position 0 of
the batch, and the check pipeline embeds
`[query, "", "What is X?"]`. -/
theorem claim_C10_witness :
    (questionTexts [qNoKey, qAlpha])[0]? = some "" ∧
    (check_similarity cfgTest oCheckMiss reqFix).2.embedArg =
      some (reqFix.question :: questionTexts [qNoKey, qAlpha]) := by
  have h := claim_C10 [qNoKey, qAlpha] 0 qNoKey rfl (Or.inl rfl)
  exact ⟨h.1, h.2.2.1 cfgTest oCheckMiss reqFix "gemini" "gemini" [1, 0]
    [[1, 0], [0, 1]] rfl rfl (by decide) (by decide) rfl rfl rfl (by decide)⟩

/-- **C3 (as amended)**: when the provider call itself succeeds, a body
that is not parseable JSON returns `false` (the `JSONDecodeError`
handler), and a JSON object without the `is_valid` field returns
`false` (the `.get` default); but a body that is parseable JSON of a
non-object kind raises an uncaught `AttributeError` instead of
returning `false`.  In none of these cases is an unavailability error
raised. -/
theorem claim_C3 (provider : String) (env : ReasoningEnv)
    (hp : provider = "gemini" ∨ (provider = "openai" ∧ env.openaiClient = true) ∨
          (provider = "deepseek" ∧ env.deepseekClient = true)) :
    (env.outcome = .returned .notJson →
       validate_question_quality provider env = .ok false) ∧
    (env.outcome = .returned .objMissingIsValid →
       validate_question_quality provider env = .ok false) ∧
    (env.outcome = .returned .nonObject →
       validate_question_quality provider env = .error .attributeError) ∧
    (∀ body, env.outcome = .returned body → ∀ msg,
       validate_question_quality provider env ≠ .error (.aiServiceUnavailable msg)) := by
  have hval : validate_question_quality provider env = validateOutcome provider env.outcome := by
    rcases hp with rfl | ⟨rfl, hc⟩ | ⟨rfl, hc⟩
    · simp [validate_question_quality]
    · simp [validate_question_quality, hc]
    · simp [validate_question_quality, hc]
  refine ⟨?_, ?_, ?_, ?_⟩
  · intro ho
    rw [hval, ho]
    rfl
  · intro ho
    rw [hval, ho]
    rfl
  · intro ho
    rw [hval, ho]
    rfl
  · intro body ho msg
    rw [hval, ho]
    cases body <;> simp [validateOutcome]

/-- Witness for C3 (amended): an unparseable body from the openai
reasoning provider yields the `false` verdict. -/
theorem claim_C3_witness :
    validate_question_quality "openai" ⟨true, true, .returned .notJson⟩ = .ok false :=
  (claim_C3 "openai" ⟨true, true, .returned .notJson⟩
    (Or.inr (Or.inl ⟨rfl, rfl⟩))).1 rfl

/-- Counterexample to C3 as stated: a successful provider response whose
body is parseable JSON but not an object (so it lacks the `is_valid`
field) makes `validate_question_quality` raise an uncaught
`AttributeError` (`result.get` on a non-dict) rather than return
`false`. -/
theorem claim_C3_counterexample :
    validate_question_quality "gemini" ⟨true, true, .returned .nonObject⟩ =
      .error .attributeError ∧
    validate_question_quality "gemini" ⟨true, true, .returned .nonObject⟩ ≠
      .ok false := by
  refine ⟨rfl, ?_⟩
  intro h
  rw [show validate_question_quality "gemini" ⟨true, true, .returned .nonObject⟩ =
        .error .attributeError from rfl] at h
  exact Except.noConfusion h

/-- **C2 (as amended)**: a transport/provider failure raised as one of
the exception classes named in the helpers' `except` tuples terminates
the request with the 503 `AIServiceUnavailable` response; a
provider-side exception of any other class terminates it with the
generic 500 internal error; in neither case is the failure converted
into a success body ("no match") or a negative validity verdict. -/
theorem claim_C2 (cfg : AppConfig) (o : CheckOracles) (req : CheckRequest) (ep rp : String)
    (h1 : req.embedding_provider = some ep) (h2 : req.reasoning_provider = some rp)
    (h3 : get_model_from_provider cfg "embedding" ep ≠ none)
    (h4 : get_model_from_provider cfg "reasoning" rp ≠ none) :
    (∀ e, o.reasoningEnv.outcome = .raised e → caughtByValidate e = true →
       (rp = "gemini" ∨ (rp = "openai" ∧ o.reasoningEnv.openaiClient = true) ∨
        (rp = "deepseek" ∧ o.reasoningEnv.deepseekClient = true)) →
       validate_question_quality rp o.reasoningEnv =
         .error (.aiServiceUnavailable
           ("The " ++ rp ++ " quality check service is unavailable."))) ∧
    (∀ e, o.reasoningEnv.outcome = .raised e → caughtByValidate e = false →
       (rp = "gemini" ∨ (rp = "openai" ∧ o.reasoningEnv.openaiClient = true) ∨
        (rp = "deepseek" ∧ o.reasoningEnv.deepseekClient = true)) →
       validate_question_quality rp o.reasoningEnv = .error (.uncaughtProvider e)) ∧
    (∀ msg, validate_question_quality rp o.reasoningEnv = .error (.aiServiceUnavailable msg) →
       (check_similarity cfg o req).1 = .serviceUnavailable msg ∧
       (check_similarity cfg o req).1.statusCode = 503 ∧
       (check_similarity cfg o req).1.isSuccess = false ∧
       (check_similarity cfg o req).1 ≠ .invalidQuestion) ∧
    (∀ e, validate_question_quality rp o.reasoningEnv = .error (.uncaughtProvider e) →
       (check_similarity cfg o req).1 = .internalError ∧
       (check_similarity cfg o req).1.statusCode = 500 ∧
       (check_similarity cfg o req).1.isSuccess = false ∧
       (check_similarity cfg o req).1 ≠ .invalidQuestion) ∧
    (∀ msg qs, validate_question_quality rp o.reasoningEnv = .ok true →
       o.fetch = .ok qs → qs ≠ [] →
       get_embeddings ep o.embedEnv = .error (.aiServiceUnavailable msg) →
       (check_similarity cfg o req).1 = .serviceUnavailable msg ∧
       (check_similarity cfg o req).1.statusCode = 503 ∧
       (check_similarity cfg o req).1.isSuccess = false) ∧
    (∀ e qs, validate_question_quality rp o.reasoningEnv = .ok true →
       o.fetch = .ok qs → qs ≠ [] →
       get_embeddings ep o.embedEnv = .error (.uncaughtProvider e) →
       (check_similarity cfg o req).1 = .internalError ∧
       (check_similarity cfg o req).1.isSuccess = false) ∧
    (∀ e, o.embedEnv.outcome = .raised e →
       (ep = "gemini" → caughtByEmbedGemini e = true →
          get_embeddings ep o.embedEnv =
            .error (.aiServiceUnavailable
              ("The " ++ ep ++ " embedding service is unavailable."))) ∧
       (ep = "gemini" → caughtByEmbedGemini e = false →
          get_embeddings ep o.embedEnv = .error (.uncaughtProvider e)) ∧
       (ep = "openai" → o.embedEnv.openaiClient = true → caughtByEmbedOpenai e = true →
          get_embeddings ep o.embedEnv =
            .error (.aiServiceUnavailable
              ("The " ++ ep ++ " embedding service is unavailable."))) ∧
       (ep = "openai" → o.embedEnv.openaiClient = true → caughtByEmbedOpenai e = false →
          get_embeddings ep o.embedEnv = .error (.uncaughtProvider e))) := by
  refine ⟨?_, ?_, ?_, ?_, ?_, ?_, ?_⟩
  · intro e ho hc hp
    rcases hp with rfl | ⟨rfl, hcl⟩ | ⟨rfl, hcl⟩
    · simp [validate_question_quality, validateOutcome, ho, hc]
    · simp [validate_question_quality, validateOutcome, ho, hc, hcl]
    · simp [validate_question_quality, validateOutcome, ho, hc, hcl]
  · intro e ho hc hp
    rcases hp with rfl | ⟨rfl, hcl⟩ | ⟨rfl, hcl⟩
    · simp [validate_question_quality, validateOutcome, ho, hc]
    · simp [validate_question_quality, validateOutcome, ho, hc, hcl]
    · simp [validate_question_quality, validateOutcome, ho, hc, hcl]
  · intro msg hv
    have e : (check_similarity cfg o req).1 = .serviceUnavailable msg := by
      simp only [check_similarity, h1, h2, hv]
      rw [if_neg (not_or.mpr ⟨h3, h4⟩)]
    refine ⟨e, by rw [e]; rfl, by rw [e]; rfl,
      by rw [e]; intro hcon; exact CheckResponse.noConfusion hcon⟩
  · intro er hv
    have e : (check_similarity cfg o req).1 = .internalError := by
      simp only [check_similarity, h1, h2, hv]
      rw [if_neg (not_or.mpr ⟨h3, h4⟩)]
    refine ⟨e, by rw [e]; rfl, by rw [e]; rfl,
      by rw [e]; intro hcon; exact CheckResponse.noConfusion hcon⟩
  · intro msg qs hval hf hne hemb
    have hie : qs.isEmpty = false := by
      cases qs with
      | nil => exact absurd rfl hne
      | cons a l => rfl
    have e : (check_similarity cfg o req).1 = .serviceUnavailable msg := by
      simp only [check_similarity, h1, h2, hval, hf, hie, hemb]
      rw [if_neg (not_or.mpr ⟨h3, h4⟩)]
      simp
    exact ⟨e, by rw [e]; rfl, by rw [e]; rfl⟩
  · intro er qs hval hf hne hemb
    have hie : qs.isEmpty = false := by
      cases qs with
      | nil => exact absurd rfl hne
      | cons a l => rfl
    have e : (check_similarity cfg o req).1 = .internalError := by
      simp only [check_similarity, h1, h2, hval, hf, hie, hemb]
      rw [if_neg (not_or.mpr ⟨h3, h4⟩)]
      simp
    exact ⟨e, by rw [e]; rfl⟩
  · intro e ho
    refine ⟨?_, ?_, ?_, ?_⟩
    · rintro rfl hc
      simp [get_embeddings, ho, hc]
    · rintro rfl hc
      simp [get_embeddings, ho, hc]
    · rintro rfl hcl hc
      simp [get_embeddings, ho, hc, hcl]
    · rintro rfl hcl hc
      simp [get_embeddings, ho, hc, hcl]

/-- Reasoning environment whose provider call raises one of the caught
transport classes (`google_exceptions.ServiceUnavailable`). -/
def rEnvDown : ReasoningEnv := ⟨true, true, .raised .serviceUnavailable⟩

/-- Check oracles with the validation provider down. -/
def oCheckDown : CheckOracles :=
  ⟨rEnvDown, .ok [qAlpha], embOK [[1, 0], [1, 0]], fun _ _ => [1]⟩

/-- Witness for C2 (amended): a caught transport failure during
validation surfaces as the 503 unavailability response. -/
theorem claim_C2_witness :
    (check_similarity cfgTest oCheckDown reqFix).1 =
      .serviceUnavailable ("The " ++ "gemini" ++ " quality check service is unavailable.") ∧
    (check_similarity cfgTest oCheckDown reqFix).1.statusCode = 503 := by
  have h := claim_C2 cfgTest oCheckDown reqFix "gemini" "gemini" rfl rfl
    (by decide) (by decide)
  have hv := h.1 .serviceUnavailable rfl rfl (Or.inl rfl)
  have hc := h.2.2.1 _ hv
  exact ⟨hc.1, hc.2.1⟩

/-- Reasoning environment whose provider call raises a provider-side
exception outside the caught classes (e.g.
`google_exceptions.InternalServerError`). -/
def rEnvBroken : ReasoningEnv := ⟨true, true, .raised .otherProviderError⟩

/-- Check oracles with the validation provider failing with an uncaught
exception class. -/
def oCheckBroken : CheckOracles :=
  ⟨rEnvBroken, .ok [qAlpha], embOK [[1, 0], [1, 0]], fun _ _ => [1]⟩

/-- Counterexample to C2 as stated: a provider-side failure whose
exception class is outside the `except` tuple (e.g. a Google
`InternalServerError` during quality validation) ends the request with
the generic 500 internal error, not a 503 `AIServiceUnavailable`-class
response. -/
theorem claim_C2_counterexample :
    (check_similarity cfgTest oCheckBroken reqFix).1 = .internalError ∧
    (check_similarity cfgTest oCheckBroken reqFix).1.statusCode = 500 ∧
    (check_similarity cfgTest oCheckBroken reqFix).1.statusCode ≠ 503 := by
  have e : (check_similarity cfgTest oCheckBroken reqFix).1 = .internalError := rfl
  exact ⟨e, by rw [e]; rfl, by rw [e]; decide⟩

end SQA
